import Mathlib

/-!
Shallow embedding of the Snowflake Cortex Analyst demo app
(`streamlit_app.py`, `utils/chart_utils.py`, `utils/llm_utils.py`,
`utils/snowflake_utils.py`) and proofs about its result-rendering
pipeline, sanitizer, caches and turn processing.

Strings manipulated by the Python code are embedded as `List Char`
where character-level scanning matters (the sanitizer), and as `String`
elsewhere.
-/

namespace CortexDemo

/- ========================================================================
   chart_utils.sanitize_plotly_code
   Python: `return raw_code.replace("fig.show()", "").strip()`
   ======================================================================== -/

/-- The literal pattern removed by the sanitizer: `fig.show()`. -/
def figShowPat : List Char := ['f', 'i', 'g', '.', 's', 'h', 'o', 'w', '(', ')']

/-- One left-to-right non-overlapping scan of Python `str.replace(pat, "")`,
written structurally: while `skip` is positive we are inside an occurrence
that has been matched and is being dropped; at `skip = 0` we test for a match
at the current position. -/
def removeAux : Nat → List Char → List Char
  | _, [] => []
  | k + 1, _ :: rest => removeAux k rest
  | 0, c :: rest =>
    if figShowPat.isPrefixOf (c :: rest) then removeAux (figShowPat.length - 1) rest
    else c :: removeAux 0 rest

/-- `raw_code.replace("fig.show()", "")`: remove every occurrence found in a
single left-to-right non-overlapping scan. -/
def removeFigShow (s : List Char) : List Char := removeAux 0 s

/-- The whitespace characters stripped by Python `str.strip()` (ASCII part). -/
def pyWhitespace : List Char := [' ', '\t', '\n', '\r', '\x0b', '\x0c']

/-- Is `c` Python whitespace? -/
def isPyWs (c : Char) : Bool := pyWhitespace.contains c

/-- Python `str.strip()`: drop leading and trailing whitespace. -/
def pyStrip (s : List Char) : List Char :=
  ((s.dropWhile isPyWs).reverse.dropWhile isPyWs).reverse

/-- Does `s` contain an occurrence of `fig.show()`? -/
def hasFigShow : List Char → Bool
  | [] => false
  | c :: rest => figShowPat.isPrefixOf (c :: rest) || hasFigShow rest

/-- `chart_utils.sanitize_plotly_code`:
`return raw_code.replace("fig.show()", "").strip()`. -/
def sanitize_plotly_code (raw_code : List Char) : List Char :=
  pyStrip (removeFigShow raw_code)

/- ========================================================================
   llm_utils.get_chart_code / get_summary (the try/except bodies)
   ======================================================================== -/

/-- Outcome of one call to the completion service `snowflake.cortex.Complete`:
either generated text, or a raised exception (payload irrelevant). -/
abbrev CompleteOutcome := Except Unit String

/-- `llm_utils.get_chart_code` body: `try: return Complete(...)`,
`except Exception: return ""`. The completion-service outcome is passed in. -/
def get_chart_code (svcOutcome : CompleteOutcome) : String :=
  match svcOutcome with
  | Except.ok t => t
  | Except.error _ => ""

/-- `llm_utils.get_summary` body: `try: return Complete(...)`,
`except Exception: return "Summary is unavailable at the moment."`. -/
def get_summary (svcOutcome : CompleteOutcome) : String :=
  match svcOutcome with
  | Except.ok t => t
  | Except.error _ => "Summary is unavailable at the moment."

/- ========================================================================
   streamlit_app.display_data_and_chart (the result renderer)
   ======================================================================== -/

/-- A Pandas DataFrame, abstracted to its rows of stringified cells; the
renderer's branching only inspects `df.shape[0]` (the number of rows). -/
structure DataFrame where
  rows : List (List String)
deriving DecidableEq, Repr

/-- `df.shape[0]`. -/
def DataFrame.rowCount (df : DataFrame) : Nat := df.rows.length

/-- `pd.DataFrame()`: the empty frame rendered when `df is None`. -/
def emptyDataFrame : DataFrame := { rows := [] }

/-- An opaque Plotly figure object. -/
structure Figure where
  figId : Nat
deriving DecidableEq, Repr

/-- The memoization state of `@st.cache_data` on `llm_utils.get_chart_code`.
Within one render every attempt passes the identical argument tuple
`(schema_dict, sample_rows_chart, MODEL_NAME_CHART, CHART_TEMPERATURE,
CHART_MAX_TOKENS)`, so the relevant cache is the single entry keyed by this
render's arguments (`none` = not yet computed).  `svcCalls` counts actual
invocations of the completion service `Complete`. -/
structure ChartGenState where
  cache : Option String
  svcCalls : Nat
deriving DecidableEq, Repr

/-- `llm_utils.get_chart_code` as seen by its caller, i.e. through the
`@st.cache_data` decorator: a cache hit returns the memoized string without
touching the completion service; a miss runs the body (`get_chart_code`)
against the next completion-service outcome and memoizes the result.
`svc n` is the outcome of the n-th actual completion-service call. -/
def get_chart_code_cached (svc : Nat → CompleteOutcome) (s : ChartGenState) :
    String × ChartGenState :=
  match s.cache with
  | some code => (code, s)
  | none =>
    let code := get_chart_code (svc s.svcCalls)
    (code, { cache := some code, svcCalls := s.svcCalls + 1 })

/-- What the Chart tab ends up showing. -/
inductive ChartOutcome
  /-- Table-only path: the Chart tab is never populated. -/
  | notRendered
  /-- `st.plotly_chart(fig)` plus the raw code expander. -/
  | shown (code : String) (fig : Figure)
  /-- `st.error("Chart is not available.")`. -/
  | failedNotice
deriving DecidableEq, Repr

/-- Result of the `for attempt in range(3)` loop. -/
structure AttemptOut where
  genState : ChartGenState
  /-- The chart code string of each attempt made, in order. -/
  codes : List String
  /-- `some (plotly_code, fig)` on success (`chart_success = True`). -/
  result : Option (String × Figure)
deriving DecidableEq, Repr

/-- The `for attempt in range(3)` loop of `display_data_and_chart`: each
iteration calls `get_chart_code` (through its cache) and then
`execute_plotly_code`; a raised exception (bad code or missing `fig`,
modelled by the oracle `ex attempt code = Except.error ()`) falls through to
the next attempt; success breaks out of the loop. -/
def chartAttemptLoop (svc : Nat → CompleteOutcome)
    (ex : Nat → String → Except Unit Figure) :
    List Nat → ChartGenState → AttemptOut
  | [], s => { genState := s, codes := [], result := none }
  | a :: rest, s =>
    let step := get_chart_code_cached svc s
    match ex a step.1 with
    | Except.ok fig => { genState := step.2, codes := [step.1], result := some (step.1, fig) }
    | Except.error _ =>
      let out := chartAttemptLoop svc ex rest step.2
      { genState := out.genState, codes := step.1 :: out.codes, result := out.result }

/-- Everything `display_data_and_chart` rendered, with call counters. -/
structure RenderTrace where
  /-- The DataFrame shown by `st.dataframe`. -/
  table : DataFrame
  chart : ChartOutcome
  /-- `some` of the markdown text iff the Summary tab was rendered. -/
  summary : Option String
  /-- Number of invocations of (cached) `get_chart_code`. -/
  chartCodeCalls : Nat
  /-- Number of invocations of `get_summary`. -/
  summaryCalls : Nat
  /-- Chart code string of each attempt, in order. -/
  codesTried : List String
deriving DecidableEq, Repr

/-- `streamlit_app.display_data_and_chart`.
`df is None or df.shape[0] <= 1` renders the table alone and returns; else
the Chart tab runs the 3-attempt loop and the Summary tab calls
`get_summary` exactly once.  Oracles: `svc n` is the n-th
completion-service outcome for chart code, `ex a code` the outcome of
`execute_plotly_code(df, code)` on attempt `a` (`Except.error` = raised or
no `fig` bound), `sumSvc` the completion-service outcome for the summary.
Returns the trace together with the final `get_chart_code` cache state. -/
def display_data_and_chart (svc : Nat → CompleteOutcome)
    (ex : Nat → String → Except Unit Figure) (sumSvc : CompleteOutcome)
    (s0 : ChartGenState) (df : Option DataFrame) : RenderTrace × ChartGenState :=
  match df with
  | none =>
    ({ table := emptyDataFrame, chart := ChartOutcome.notRendered, summary := none,
       chartCodeCalls := 0, summaryCalls := 0, codesTried := [] }, s0)
  | some d =>
    if d.rowCount ≤ 1 then
      ({ table := d, chart := ChartOutcome.notRendered, summary := none,
         chartCodeCalls := 0, summaryCalls := 0, codesTried := [] }, s0)
    else
      let out := chartAttemptLoop svc ex (List.range 3) s0
      let chart := match out.result with
        | some (code, fig) => ChartOutcome.shown code fig
        | none => ChartOutcome.failedNotice
      ({ table := d, chart := chart, summary := some (get_summary sumSvc),
         chartCodeCalls := out.codes.length, summaryCalls := 1,
         codesTried := out.codes }, out.genState)

/- ========================================================================
   snowflake_utils.get_cached_df
   ======================================================================== -/

/-- The per-process memoization state of `@st.cache_data` on
`get_cached_df`, keyed by the exact SQL string, plus a counter of actual
executions against Snowflake (`session.sql(sql).to_pandas()`). -/
structure SqlCache where
  entries : List (String × DataFrame)
  execCount : Nat
deriving DecidableEq, Repr

/-- Fresh process: empty cache, no executions yet. -/
def initialSqlCache : SqlCache := { entries := [], execCount := 0 }

/-- `snowflake_utils.get_cached_df` through its `@st.cache_data` decorator:
a hit on the exact SQL string returns the memoized DataFrame without
executing; a miss executes against the backing store and memoizes.
`store n sql` is the result of the n-th actual execution (indexing by
execution count lets the backing data change between executions). -/
def get_cached_df (store : Nat → String → DataFrame) (st : SqlCache)
    (sql : String) : DataFrame × SqlCache :=
  match st.entries.lookup sql with
  | some df => (df, st)
  | none =>
    let df := store st.execCount sql
    (df, { entries := (sql, df) :: st.entries, execCount := st.execCount + 1 })

/- ========================================================================
   streamlit_app.send_message / process_message
   ======================================================================== -/

/-- One chunk of an analyst/assistant message:
`{"type": "text"|"suggestions"|"sql", ...}`. -/
inductive ContentItem
  | text (s : String)
  | suggestions (l : List String)
  | sql (stmt : String)
deriving DecidableEq, Repr

/-- One entry of `st.session_state.messages`. -/
structure ChatMessage where
  role : String
  content : List ContentItem
deriving DecidableEq, Repr

/-- The `{status, content}` value returned by
`_snowflake.send_snow_api_request`; the body is kept in already-parsed form
(the `response["message"]["content"]` list), eliding JSON decoding. -/
structure CortexResponse where
  status : Nat
  content : List ContentItem
deriving DecidableEq, Repr

/-- `streamlit_app.send_message`: `if resp["status"] < 400: return
json.loads(resp["content"])` else `raise Exception(...)` — the raised
exception carries the status. -/
def send_message (resp : CortexResponse) : Except Nat (List ContentItem) :=
  if resp.status < 400 then Except.ok resp.content else Except.error resp.status

/-- How a user turn ended. -/
inductive TurnOutcome
  /-- `st.error(f"LLM request failed: ...")` then `return`. -/
  | errorShown (status : Nat)
  /-- Assistant content rendered. -/
  | rendered
deriving DecidableEq, Repr

/-- Number of `{"type": "sql"}` items in assistant content; each one makes
`render_sql_item` call `get_cached_df`, i.e. attempt one SQL execution. -/
def countSqlItems (l : List ContentItem) : Nat :=
  (l.filter fun i => match i with | ContentItem.sql _ => true | _ => false).length

/-- Result of one `process_message` turn. -/
structure TurnResult where
  messages : List ChatMessage
  outcome : TurnOutcome
  sqlExecutionsAttempted : Nat
deriving DecidableEq, Repr

/-- `streamlit_app.process_message`: append the user message to the history;
call `send_message`; on a raised exception show an inline error and return
(no assistant message appended, nothing rendered); on success render the
assistant content (each sql item attempts one SQL execution) and append the
assistant message. -/
def process_message (resp : CortexResponse) (messages : List ChatMessage)
    (prompt : String) : TurnResult :=
  let messages1 := messages ++ [{ role := "user", content := [ContentItem.text prompt] }]
  match send_message resp with
  | Except.error status =>
    { messages := messages1, outcome := TurnOutcome.errorShown status,
      sqlExecutionsAttempted := 0 }
  | Except.ok content =>
    { messages := messages1 ++ [{ role := "assistant", content := content }],
      outcome := TurnOutcome.rendered,
      sqlExecutionsAttempted := countSqlItems content }

/- ========================================================================
   chart_utils.execute_plotly_code: the evaluation-scope semantics of
   `exec(code, {}, local_vars)` with `local_vars = {"df": df, "px": px,
   "go": go}`.
   ======================================================================== -/

/-- A Python value as far as scope resolution is concerned. -/
inductive PyVal
  /-- The DataFrame bound to `df`. -/
  | vDf
  /-- The `plotly.express` module bound to `px`. -/
  | vPx
  /-- The `plotly.graph_objects` module bound to `go`. -/
  | vGo
  /-- A member of the builtin namespace (`len`, `open`, ...). -/
  | builtin (name : String)
  | num (n : Nat)
deriving DecidableEq, Repr

/-- An expression of the generated source: a name lookup or a literal. -/
inductive PyExpr
  | name (s : String)
  | lit (n : Nat)
deriving DecidableEq, Repr

/-- A statement of the generated source: `x = e`. -/
inductive PyStmt
  | assign (x : String) (e : PyExpr)
deriving DecidableEq, Repr

/-- Errors raised during execution. -/
inductive PyErr
  /-- `NameError: name s is not defined`. -/
  | nameError (s : String)
  /-- `ValueError("No fig object was created by the Plotly code.")`. -/
  | noFig
deriving DecidableEq, Repr

/-- A modelled fragment of Python's builtin namespace.  CPython `exec`
inserts `__builtins__` into a supplied globals dict that lacks that key, so
even with `exec(code, {}, local_vars)` these names resolve. -/
def builtinNames : List String :=
  ["len", "abs", "min", "max", "sum", "range", "sorted", "print", "open",
   "getattr", "setattr", "__import__", "str", "int", "float", "list", "dict"]

/-- Name resolution inside `exec(code, {}, local_vars)`: the locals dict,
then the globals dict — which was passed empty and holds only the
auto-inserted `__builtins__`, so resolution falls through to builtins and
never to the module's ambient globals. -/
def lookupName (locals : List (String × PyVal)) (s : String) : Option PyVal :=
  match locals.lookup s with
  | some v => some v
  | none => if builtinNames.contains s then some (PyVal.builtin s) else none

/-- Evaluate an expression; an unresolvable name raises `NameError`. -/
def evalExpr (locals : List (String × PyVal)) : PyExpr → Except PyErr PyVal
  | PyExpr.name s =>
    match lookupName locals s with
    | some v => Except.ok v
    | none => Except.error (PyErr.nameError s)
  | PyExpr.lit n => Except.ok (PyVal.num n)

/-- Execute the statements; assignment writes into the locals dict (that is
where `exec` puts top-level bindings, and where `fig` is later read from). -/
def execStmts (locals : List (String × PyVal)) :
    List PyStmt → Except PyErr (List (String × PyVal))
  | [] => Except.ok locals
  | PyStmt.assign x e :: rest => do
    let v ← evalExpr locals e
    execStmts ((x, v) :: locals) rest

/-- `local_vars = {"df": df, "px": px, "go": go}`. -/
def initialLocals : List (String × PyVal) :=
  [("df", PyVal.vDf), ("px", PyVal.vPx), ("go", PyVal.vGo)]

/-- `chart_utils.execute_plotly_code` on already-parsed source: run the
statements in the isolated scope, then `local_vars.get("fig")`; raise
`ValueError` if no `fig` was bound.  (`sanitize_plotly_code` and
`textwrap.dedent` act on the textual form and do not affect scoping.) -/
def execute_plotly_code (prog : List PyStmt) : Except PyErr PyVal :=
  match execStmts initialLocals prog with
  | Except.error e => Except.error e
  | Except.ok locals =>
    match locals.lookup "fig" with
    | some v => Except.ok v
    | none => Except.error PyErr.noFig

/-- The names of an expression. -/
def exprReads : PyExpr → List String
  | PyExpr.name s => [s]
  | PyExpr.lit _ => []

/-- The names a program reads before having assigned them itself, given the
names already bound (`assigned`).  These are exactly the reads served by
the scope rather than by the program's own definitions. -/
def freeReads (assigned : List String) : List PyStmt → List String
  | [] => []
  | PyStmt.assign x e :: rest =>
    (exprReads e).filter (fun s => ¬ assigned.contains s) ++
      freeReads (x :: assigned) rest

/- ========================================================================
   Concrete fixtures for witnesses and counterexamples
   ======================================================================== -/

/-- A two-row result set (full-render path). -/
def df2 : DataFrame := { rows := [["a"], ["b"]] }

/-- A one-row result set (table-only path). -/
def df1 : DataFrame := { rows := [["only"]] }

/-- An execution oracle on which every chart attempt fails (generated source
raises or binds no `fig`). -/
def exAllFail : Nat → String → Except Unit Figure := fun _ _ => Except.error ()

/-- A completion service returning a different chart-code string on each
actual call, so any reuse of code across attempts is visible. -/
def svcDistinct : Nat → CompleteOutcome :=
  fun n => Except.ok (if n = 0 then "codeA" else if n = 1 then "codeB" else "codeC")

/-- A backing store whose answer depends on the execution count, so a
re-execution is distinguishable from a cache hit. -/
def storeW : Nat → String → DataFrame :=
  fun n sql => { rows := [[sql, if n = 0 then "first" else "later"]] }

/- ========================================================================
   Helper lemmas: Python str.strip / str.replace fragments
   ======================================================================== -/

theorem dropWhile_head_false (p : Char → Bool) :
    ∀ (l : List Char) (c : Char) (t : List Char),
      List.dropWhile p l = c :: t → p c = false := by
  intro l
  induction l with
  | nil => intro c t h; simp [List.dropWhile] at h
  | cons a as ih =>
    intro c t h
    by_cases hp : p a
    · rw [List.dropWhile_cons_of_pos hp] at h
      exact ih c t h
    · rw [List.dropWhile_cons_of_neg hp] at h
      cases h
      simpa using hp

theorem dropWhile_of_head_false (p : Char → Bool) (c : Char) (t : List Char)
    (h : p c = false) : List.dropWhile p (c :: t) = c :: t := by
  simp [List.dropWhile, h]

theorem dropWhile_idem (p : Char → Bool) (l : List Char) :
    List.dropWhile p (List.dropWhile p l) = List.dropWhile p l := by
  cases h : List.dropWhile p l with
  | nil => simp
  | cons c t => exact dropWhile_of_head_false p c t (dropWhile_head_false p l c t h)

theorem exists_append_dropWhile (p : Char → Bool) :
    ∀ l : List Char, ∃ u, l = u ++ List.dropWhile p l := by
  intro l
  induction l with
  | nil => exact ⟨[], rfl⟩
  | cons a as ih =>
    by_cases hp : p a
    · obtain ⟨u, hu⟩ := ih
      exact ⟨a :: u, by rw [List.dropWhile_cons_of_pos hp]; simpa using hu⟩
    · exact ⟨[], by rw [List.dropWhile_cons_of_neg hp]; rfl⟩

theorem pyStrip_idem (s : List Char) : pyStrip (pyStrip s) = pyStrip s := by
  unfold pyStrip
  have hm : List.dropWhile isPyWs (List.dropWhile isPyWs s) = List.dropWhile isPyWs s :=
    dropWhile_idem isPyWs s
  cases hrev : List.dropWhile isPyWs (List.dropWhile isPyWs s).reverse with
  | nil => simp
  | cons c2 t2 =>
    -- the stripped result is `(c2 :: t2).reverse`, a prefix of the
    -- left-stripped list, so its head (if any) is not whitespace
    obtain ⟨u, hu⟩ := exists_append_dropWhile isPyWs (List.dropWhile isPyWs s).reverse
    rw [hrev] at hu
    have hs : List.dropWhile isPyWs s = (c2 :: t2).reverse ++ u.reverse := by
      have := congrArg List.reverse hu
      simpa [List.reverse_append] using this
    have hA : List.dropWhile isPyWs (c2 :: t2).reverse = (c2 :: t2).reverse := by
      cases hc : (c2 :: t2).reverse with
      | nil => rfl
      | cons d dt =>
        rw [hc] at hs
        have hhead : isPyWs d = false := by
          apply dropWhile_head_false isPyWs (List.dropWhile isPyWs s) d (dt ++ u.reverse)
          rw [hm, hs, List.cons_append]
        exact dropWhile_of_head_false isPyWs d dt hhead
    rw [hA, List.reverse_reverse]
    have h2 : isPyWs c2 = false :=
      dropWhile_head_false isPyWs (List.dropWhile isPyWs s).reverse c2 t2 hrev
    rw [dropWhile_of_head_false isPyWs c2 t2 h2]

theorem exists_pyStrip_piece (s : List Char) :
    ∃ u r, s = u ++ pyStrip s ++ r := by
  obtain ⟨u1, hu1⟩ := exists_append_dropWhile isPyWs s
  obtain ⟨u2, hu2⟩ := exists_append_dropWhile isPyWs (List.dropWhile isPyWs s).reverse
  refine ⟨u1, u2.reverse, ?_⟩
  have hs : List.dropWhile isPyWs s = pyStrip s ++ u2.reverse := by
    have := congrArg List.reverse hu2
    simpa [List.reverse_append, pyStrip] using this
  calc s = u1 ++ List.dropWhile isPyWs s := hu1
    _ = u1 ++ (pyStrip s ++ u2.reverse) := by rw [hs]
    _ = u1 ++ pyStrip s ++ u2.reverse := by rw [List.append_assoc]

theorem isPrefixOf_append (y : List Char) :
    ∀ (p l : List Char), p.isPrefixOf l = true → p.isPrefixOf (l ++ y) = true := by
  intro p
  induction p with
  | nil => intro l _; simp [List.isPrefixOf]
  | cons a as ih =>
    intro l h
    cases l with
    | nil => simp [List.isPrefixOf] at h
    | cons b bs =>
      simp only [List.isPrefixOf, Bool.and_eq_true] at h
      simp only [List.cons_append, List.isPrefixOf, Bool.and_eq_true]
      exact ⟨h.1, ih bs h.2⟩

theorem hasFigShow_append_left (x t : List Char) (h : hasFigShow t = true) :
    hasFigShow (x ++ t) = true := by
  induction x with
  | nil => simpa using h
  | cons c cs ih =>
    simp only [List.cons_append, hasFigShow, Bool.or_eq_true]
    exact Or.inr ih

theorem hasFigShow_append_right (y : List Char) :
    ∀ t : List Char, hasFigShow t = true → hasFigShow (t ++ y) = true := by
  intro t
  induction t with
  | nil => intro h; simp [hasFigShow] at h
  | cons c cs ih =>
    intro h
    simp only [hasFigShow, Bool.or_eq_true] at h
    simp only [List.cons_append, hasFigShow, Bool.or_eq_true]
    rcases h with h | h
    · exact Or.inl (by simpa [List.cons_append] using isPrefixOf_append y figShowPat (c :: cs) h)
    · exact Or.inr (ih h)

theorem hasFigShow_piece (u t r : List Char) (h : hasFigShow (u ++ t ++ r) = false) :
    hasFigShow t = false := by
  cases ht : hasFigShow t with
  | false => rfl
  | true =>
    have := hasFigShow_append_left u (t ++ r) (hasFigShow_append_right r t ht)
    rw [← List.append_assoc] at this
    rw [this] at h
    cases h

theorem removeFigShow_of_not_hasFigShow :
    ∀ s : List Char, hasFigShow s = false → removeFigShow s = s := by
  intro s
  induction s with
  | nil => intro _; rfl
  | cons c cs ih =>
    intro h
    simp only [hasFigShow, Bool.or_eq_false_iff] at h
    show removeAux 0 (c :: cs) = c :: cs
    simp only [removeAux, h.1]
    simp only [Bool.false_eq_true, if_false]
    exact congrArg (fun l => c :: l) (ih h.2)

/- ========================================================================
   Claim C5: sanitizer totality and idempotence
   ======================================================================== -/

/-- Claim C5, counterexample: the claim says that for every input the
sanitizer returns a string with no occurrence of `fig.show()` and that it
is idempotent.  On the input `fig.showfig.show()()` the single
left-to-right replacement pass removes the one occurrence but splices the
surrounding text into a new occurrence: the output is exactly
`fig.show()`, which still contains the pattern, and sanitizing again gives
the empty string, so the sanitizer is not idempotent. -/
theorem c5_counterexample :
    sanitize_plotly_code
        ['f', 'i', 'g', '.', 's', 'h', 'o', 'w',
         'f', 'i', 'g', '.', 's', 'h', 'o', 'w', '(', ')', '(', ')'] = figShowPat ∧
    hasFigShow (sanitize_plotly_code
        ['f', 'i', 'g', '.', 's', 'h', 'o', 'w',
         'f', 'i', 'g', '.', 's', 'h', 'o', 'w', '(', ')', '(', ')']) = true ∧
    sanitize_plotly_code (sanitize_plotly_code
        ['f', 'i', 'g', '.', 's', 'h', 'o', 'w',
         'f', 'i', 'g', '.', 's', 'h', 'o', 'w', '(', ')', '(', ')']) ≠
      sanitize_plotly_code
        ['f', 'i', 'g', '.', 's', 'h', 'o', 'w',
         'f', 'i', 'g', '.', 's', 'h', 'o', 'w', '(', ')', '(', ')'] := by
  refine ⟨by decide, by decide, by decide⟩

/-- Claim C5 (amended): the sanitizer is total; on any input containing no
occurrence of `fig.show()` it returns the whitespace-trimmed input, which
contains no occurrence; and whenever the sanitizer's output contains no
occurrence, re-applying the sanitizer returns the output unchanged.  (The
unconditional no-occurrence and idempotence properties fail, because the
single replacement pass can splice a new occurrence together.) -/
theorem c5_sanitize_amended : ∀ s : List Char,
    (hasFigShow s = false →
      sanitize_plotly_code s = pyStrip s ∧
      hasFigShow (sanitize_plotly_code s) = false) ∧
    (hasFigShow (sanitize_plotly_code s) = false →
      sanitize_plotly_code (sanitize_plotly_code s) = sanitize_plotly_code s) := by
  intro s
  constructor
  · intro h
    have hrm : removeFigShow s = s := removeFigShow_of_not_hasFigShow s h
    have hval : sanitize_plotly_code s = pyStrip s := by
      unfold sanitize_plotly_code
      rw [hrm]
    refine ⟨hval, ?_⟩
    rw [hval]
    obtain ⟨u, r, hur⟩ := exists_pyStrip_piece s
    apply hasFigShow_piece u (pyStrip s) r
    rw [← hur]
    exact h
  · intro h
    have hrm : removeFigShow (sanitize_plotly_code s) = sanitize_plotly_code s :=
      removeFigShow_of_not_hasFigShow _ h
    show pyStrip (removeFigShow (sanitize_plotly_code s)) = sanitize_plotly_code s
    rw [hrm]
    show pyStrip (pyStrip (removeFigShow s)) = pyStrip (removeFigShow s)
    exact pyStrip_idem (removeFigShow s)

/-- Claim C5, witness: both implications of the amended theorem instantiated
at the occurrence-free input `px.bar`. -/
theorem c5_witness :
    hasFigShow ['p', 'x', '.', 'b', 'a', 'r'] = false ∧
    (sanitize_plotly_code ['p', 'x', '.', 'b', 'a', 'r'] =
        pyStrip ['p', 'x', '.', 'b', 'a', 'r'] ∧
      hasFigShow (sanitize_plotly_code ['p', 'x', '.', 'b', 'a', 'r']) = false) ∧
    sanitize_plotly_code (sanitize_plotly_code ['p', 'x', '.', 'b', 'a', 'r']) =
      sanitize_plotly_code ['p', 'x', '.', 'b', 'a', 'r'] :=
  ⟨by decide, (c5_sanitize_amended ['p', 'x', '.', 'b', 'a', 'r']).1 (by decide),
    (c5_sanitize_amended ['p', 'x', '.', 'b', 'a', 'r']).2 (by decide)⟩

/- ========================================================================
   Helper lemmas: the 3-attempt chart loop
   ======================================================================== -/

theorem chartAttemptLoop_codes_length_le (svc : Nat → CompleteOutcome)
    (ex : Nat → String → Except Unit Figure) :
    ∀ (L : List Nat) (s : ChartGenState),
      (chartAttemptLoop svc ex L s).codes.length ≤ L.length := by
  intro L
  induction L with
  | nil => intro s; simp [chartAttemptLoop]
  | cons a rest ih =>
    intro s
    simp only [chartAttemptLoop]
    cases hx : ex a (get_chart_code_cached svc s).1 with
    | ok fig => simp
    | error e =>
      simp only [List.length_cons]
      exact Nat.succ_le_succ (ih (get_chart_code_cached svc s).2)

theorem chartAttemptLoop_allFail (svc : Nat → CompleteOutcome)
    (ex : Nat → String → Except Unit Figure)
    (hex : ∀ a c, ex a c = Except.error ()) :
    ∀ (L : List Nat) (s : ChartGenState),
      (chartAttemptLoop svc ex L s).codes.length = L.length ∧
      (chartAttemptLoop svc ex L s).result = none := by
  intro L
  induction L with
  | nil => intro s; simp [chartAttemptLoop]
  | cons a rest ih =>
    intro s
    simp only [chartAttemptLoop, hex]
    simpa using ih (get_chart_code_cached svc s).2

theorem chartAttemptLoop_codes_pos (svc : Nat → CompleteOutcome)
    (ex : Nat → String → Except Unit Figure) (a : Nat) (rest : List Nat)
    (s : ChartGenState) :
    1 ≤ (chartAttemptLoop svc ex (a :: rest) s).codes.length := by
  simp only [chartAttemptLoop]
  cases hx : ex a (get_chart_code_cached svc s).1 with
  | ok fig => simp
  | error e => simp

/-- From a fresh cache, every attempt of the loop reuses the single memoized
chart-code string, and the completion service is called exactly once. -/
theorem chartAttemptLoop_fresh_cache_same_code (svc : Nat → CompleteOutcome)
    (ex : Nat → String → Except Unit Figure) :
    ∀ (L : List Nat) (n : Nat), L ≠ [] →
      (chartAttemptLoop svc ex L { cache := none, svcCalls := n }).codes.all
          (fun c => c = get_chart_code (svc n)) = true ∧
      (chartAttemptLoop svc ex L { cache := none, svcCalls := n }).genState =
        { cache := some (get_chart_code (svc n)), svcCalls := n + 1 } := by
  have hcached : ∀ (L : List Nat) (code : String) (m : Nat),
      (chartAttemptLoop svc ex L { cache := some code, svcCalls := m }).codes.all
          (fun c => c = code) = true ∧
      (chartAttemptLoop svc ex L { cache := some code, svcCalls := m }).genState =
        { cache := some code, svcCalls := m } := by
    intro L
    induction L with
    | nil => intro code m; simp [chartAttemptLoop]
    | cons a rest ih =>
      intro code m
      simp only [chartAttemptLoop, get_chart_code_cached]
      cases hx : ex a code with
      | ok fig => simp
      | error e =>
        simp only [List.all_cons]
        have := ih code m
        simp only [this.1, this.2]
        simp
  intro L n hL
  cases L with
  | nil => exact absurd rfl hL
  | cons a rest =>
    simp only [chartAttemptLoop, get_chart_code_cached]
    cases hx : ex a (get_chart_code (svc n)) with
    | ok fig => simp
    | error e =>
      simp only [List.all_cons]
      have := hcached rest (get_chart_code (svc n)) (n + 1)
      simp only [this.1, this.2]
      simp

/- ========================================================================
   Claims C1, C2, C3, C10: the renderer's control flow
   ======================================================================== -/

/-- Claim C1: for every tabular result with more than one row and any
sequence of chart-generation failures, the renderer makes at most 3
invocations of the chart-code generation call, and when every attempt
fails it makes exactly 3 and degrades to the static notice. -/
theorem c1_chart_attempts_bounded (svc : Nat → CompleteOutcome)
    (ex : Nat → String → Except Unit Figure) (sumSvc : CompleteOutcome)
    (s0 : ChartGenState) (d : DataFrame) (h : 1 < d.rowCount) :
    (display_data_and_chart svc ex sumSvc s0 (some d)).1.chartCodeCalls ≤ 3 ∧
    ((∀ a c, ex a c = Except.error ()) →
      (display_data_and_chart svc ex sumSvc s0 (some d)).1.chart =
          ChartOutcome.failedNotice ∧
      (display_data_and_chart svc ex sumSvc s0 (some d)).1.chartCodeCalls = 3) := by
  have hcond : ¬ d.rowCount ≤ 1 := by omega
  simp only [display_data_and_chart, hcond, if_false]
  constructor
  · simpa using chartAttemptLoop_codes_length_le svc ex (List.range 3) s0
  · intro hex
    have hall := chartAttemptLoop_allFail svc ex hex (List.range 3) s0
    simp only [hall.2, hall.1]
    simp

/-- Claim C1, witness: a two-row result with an always-failing execution
oracle makes exactly 3 chart-code calls and shows the notice. -/
theorem c1_witness :
    1 < df2.rowCount ∧
    (display_data_and_chart svcDistinct exAllFail (Except.ok "ok")
        { cache := none, svcCalls := 0 } (some df2)).1.chartCodeCalls ≤ 3 ∧
    (display_data_and_chart svcDistinct exAllFail (Except.ok "ok")
        { cache := none, svcCalls := 0 } (some df2)).1.chart =
      ChartOutcome.failedNotice ∧
    (display_data_and_chart svcDistinct exAllFail (Except.ok "ok")
        { cache := none, svcCalls := 0 } (some df2)).1.chartCodeCalls = 3 := by
  have h := c1_chart_attempts_bounded svcDistinct exAllFail (Except.ok "ok")
    { cache := none, svcCalls := 0 } df2 (by decide)
  have h2 := h.2 (fun _ _ => rfl)
  exact ⟨by decide, h.1, h2.1, h2.2⟩

/-- Claim C2: a missing result or one with at most one row renders the
table alone: the chart tab and the summary tab are never populated, no
chart-code call, completion-service call or summary call is made, and the
`get_chart_code` cache state is returned untouched. -/
theorem c2_table_only_no_llm (svc : Nat → CompleteOutcome)
    (ex : Nat → String → Except Unit Figure) (sumSvc : CompleteOutcome)
    (s0 : ChartGenState) (odf : Option DataFrame)
    (h : odf = none ∨ ∃ d, odf = some d ∧ d.rowCount ≤ 1) :
    display_data_and_chart svc ex sumSvc s0 odf =
      ({ table := odf.getD emptyDataFrame, chart := ChartOutcome.notRendered,
         summary := none, chartCodeCalls := 0, summaryCalls := 0,
         codesTried := [] }, s0) := by
  rcases h with h | ⟨d, hd, hle⟩
  · rw [h]; rfl
  · rw [hd]
    simp only [display_data_and_chart, hle, if_true]
    rfl

/-- Claim C2, witness: a one-row result. -/
theorem c2_witness :
    (some df1 = none ∨ ∃ d, some df1 = some d ∧ d.rowCount ≤ 1) ∧
    display_data_and_chart svcDistinct exAllFail (Except.ok "ok")
        { cache := none, svcCalls := 0 } (some df1) =
      ({ table := (some df1).getD emptyDataFrame, chart := ChartOutcome.notRendered,
         summary := none, chartCodeCalls := 0, summaryCalls := 0,
         codesTried := [] }, { cache := none, svcCalls := 0 }) :=
  ⟨Or.inr ⟨df1, rfl, by decide⟩,
    c2_table_only_no_llm svcDistinct exAllFail (Except.ok "ok")
      { cache := none, svcCalls := 0 } (some df1) (Or.inr ⟨df1, rfl, by decide⟩)⟩

/-- Claim C3: for every tabular result with more than one row the renderer
attempts chart generation at least once and invokes summary generation
exactly once, whatever the execution oracle does (the quantification over
`ex` covers both chart success and chart failure). -/
theorem c3_summary_exactly_once (svc : Nat → CompleteOutcome)
    (ex : Nat → String → Except Unit Figure) (sumSvc : CompleteOutcome)
    (s0 : ChartGenState) (d : DataFrame) (h : 1 < d.rowCount) :
    1 ≤ (display_data_and_chart svc ex sumSvc s0 (some d)).1.chartCodeCalls ∧
    (display_data_and_chart svc ex sumSvc s0 (some d)).1.summaryCalls = 1 ∧
    (display_data_and_chart svc ex sumSvc s0 (some d)).1.summary =
      some (get_summary sumSvc) := by
  have hcond : ¬ d.rowCount ≤ 1 := by omega
  refine ⟨?_, ?_, ?_⟩
  · simp only [display_data_and_chart, hcond, if_false]
    have hrange : List.range 3 = 0 :: [1, 2] := by decide
    rw [hrange]
    exact chartAttemptLoop_codes_pos svc ex 0 [1, 2] s0
  · simp only [display_data_and_chart, hcond, if_false]
  · simp only [display_data_and_chart, hcond, if_false]

/-- Claim C3, witness: two rows, all chart attempts failing — the summary is
still generated exactly once. -/
theorem c3_witness :
    1 < df2.rowCount ∧
    1 ≤ (display_data_and_chart svcDistinct exAllFail (Except.ok "sum")
        { cache := none, svcCalls := 0 } (some df2)).1.chartCodeCalls ∧
    (display_data_and_chart svcDistinct exAllFail (Except.ok "sum")
        { cache := none, svcCalls := 0 } (some df2)).1.summaryCalls = 1 ∧
    (display_data_and_chart svcDistinct exAllFail (Except.ok "sum")
        { cache := none, svcCalls := 0 } (some df2)).1.summary =
      some (get_summary (Except.ok "sum")) := by
  have h := c3_summary_exactly_once svcDistinct exAllFail (Except.ok "sum")
    { cache := none, svcCalls := 0 } df2 (by decide)
  exact ⟨by decide, h.1, h.2.1, h.2.2⟩

/-- Claim C10: calling the renderer with a missing result (`df is None`)
returns immediately: it renders the empty table, populates neither the
chart nor the summary tab, makes no chart-generation, code-execution or
summary call, and leaves the cache state untouched.  (In the embedding the
renderer is a total function, so it cannot raise.) -/
theorem c10_missing_result_safe (svc : Nat → CompleteOutcome)
    (ex : Nat → String → Except Unit Figure) (sumSvc : CompleteOutcome)
    (s0 : ChartGenState) :
    display_data_and_chart svc ex sumSvc s0 none =
      ({ table := emptyDataFrame, chart := ChartOutcome.notRendered,
         summary := none, chartCodeCalls := 0, summaryCalls := 0,
         codesTried := [] }, s0) := rfl

/- ========================================================================
   Claim C4: retries are NOT independent completion-service calls
   ======================================================================== -/

/-- Claim C4 is refuted by the code: `get_chart_code` is wrapped in
`@st.cache_data` and every attempt of one render passes the identical
argument tuple, so after the first attempt the memoized string is returned.
Evidence at a concrete failing input (fresh cache, two-row result, a
completion service that would return `codeB` on a second call, every
execution failing): all three attempts use the byte-identical string
`codeA` and the completion service is invoked exactly once, not three
times. -/
theorem c4_cached_retry_not_independent :
    (display_data_and_chart svcDistinct exAllFail (Except.ok "ok")
        { cache := none, svcCalls := 0 } (some df2)).1.codesTried =
      ["codeA", "codeA", "codeA"] ∧
    (display_data_and_chart svcDistinct exAllFail (Except.ok "ok")
        { cache := none, svcCalls := 0 } (some df2)).2.svcCalls = 1 ∧
    svcDistinct 1 = Except.ok "codeB" := by
  refine ⟨by decide, by decide, rfl⟩

/- ========================================================================
   Helper lemmas: the exec evaluation scope
   ======================================================================== -/

theorem lookup_eq_none_of_keys_not_contains :
    ∀ (l : List (String × PyVal)) (k : String),
      (l.map Prod.fst).contains k = false → l.lookup k = none := by
  intro l
  induction l with
  | nil => intro k _; rfl
  | cons p t ih =>
    intro k h
    simp only [List.map_cons, List.contains_cons, Bool.or_eq_false_iff] at h
    simp only [List.lookup, h.1]
    exact ih k h.2

theorem evalExpr_error_is_nameError (locals : List (String × PyVal))
    (e : PyExpr) (pe : PyErr) (h : evalExpr locals e = Except.error pe) :
    ∃ t, pe = PyErr.nameError t := by
  cases e with
  | lit n => simp [evalExpr] at h
  | name s =>
    simp only [evalExpr] at h
    cases hl : lookupName locals s with
    | some v => rw [hl] at h; cases h
    | none =>
      rw [hl] at h
      cases h
      exact ⟨s, rfl⟩

theorem execStmts_fails_on_outside_read :
    ∀ (prog : List PyStmt) (locals : List (String × PyVal)) (s : String),
      s ∈ freeReads (locals.map Prod.fst) prog →
      builtinNames.contains s = false →
      ∃ t, execStmts locals prog = Except.error (PyErr.nameError t) := by
  intro prog
  induction prog with
  | nil => intro locals s hmem _; simp [freeReads] at hmem
  | cons st rest ih =>
    intro locals s hmem hnb
    cases st with
    | assign x e =>
      simp only [freeReads, List.mem_append] at hmem
      rcases hmem with hmem | hmem
      · -- the bad read is in this statement's expression
        rw [List.mem_filter] at hmem
        obtain ⟨hin, hkeys⟩ := hmem
        cases e with
        | lit n => simp [exprReads] at hin
        | name nm =>
          simp only [exprReads, List.mem_singleton] at hin
          subst hin
          have hk : (locals.map Prod.fst).contains s = false := by
            simpa using hkeys
          have hlook : lookupName locals s = none := by
            simp only [lookupName, lookup_eq_none_of_keys_not_contains locals s hk, hnb]
            simp
          refine ⟨s, ?_⟩
          simp only [execStmts, evalExpr, hlook]
          rfl
      · -- the bad read is further down; this statement either fails
        -- (necessarily with a NameError) or extends the bindings
        cases he : evalExpr locals e with
        | error pe =>
          obtain ⟨t, ht⟩ := evalExpr_error_is_nameError locals e pe he
          refine ⟨t, ?_⟩
          simp only [execStmts, he, ht]
          rfl
        | ok v =>
          have hmem2 : s ∈ freeReads (((x, v) :: locals).map Prod.fst) rest := by
            simpa using hmem
          obtain ⟨t, ht⟩ := ih ((x, v) :: locals) s hmem2 hnb
          refine ⟨t, ?_⟩
          simp only [execStmts, he]
          exact ht

/- ========================================================================
   Claim C6: the evaluation scope of generated source
   ======================================================================== -/

/-- Claim C6, counterexample: the claim says the scope exposes exactly the
three bindings `df`, `px`, `go` and that any read of another name (not
self-defined) fails or is inert.  But `exec` auto-inserts `__builtins__`
into the supplied empty globals dict, so the generated source `fig = len`
— whose only read, `len`, is none of the three bindings and is not defined
by the source itself — executes successfully, and the read determines the
returned figure object (reading `open` instead yields a different result):
the access neither fails nor is inert. -/
theorem c6_counterexample :
    execute_plotly_code [PyStmt.assign "fig" (PyExpr.name "len")] =
      Except.ok (PyVal.builtin "len") ∧
    execute_plotly_code [PyStmt.assign "fig" (PyExpr.name "open")] =
      Except.ok (PyVal.builtin "open") ∧
    PyVal.builtin "len" ≠ PyVal.builtin "open" ∧
    (["df", "px", "go"] : List String).contains "len" = false ∧
    (["df", "px", "go"] : List String).contains "open" = false := by
  refine ⟨rfl, rfl, by decide, by decide, by decide⟩

/-- Claim C6 (amended): the scope in which generated source runs inherits no
module-level ambient globals and exposes the three bindings `df`, `px`,
`go` — plus the builtin namespace, which the execution primitive
auto-inserts into the empty globals dict.  Every generated source that
reads a name other than those three bindings, names it assigned itself
earlier, and builtins fails with a NameError. -/
theorem c6_scope_amended (prog : List PyStmt) (s : String)
    (hmem : s ∈ freeReads ["df", "px", "go"] prog)
    (hnb : builtinNames.contains s = false) :
    ∃ t, execute_plotly_code prog = Except.error (PyErr.nameError t) := by
  have hkeys : initialLocals.map Prod.fst = ["df", "px", "go"] := rfl
  obtain ⟨t, ht⟩ := execStmts_fails_on_outside_read prog initialLocals s
    (by rw [hkeys]; exact hmem) hnb
  refine ⟨t, ?_⟩
  simp only [execute_plotly_code, ht]

/-- Claim C6, witness: a source reading the module-level name `session`
(visible as an ambient global in `chart_utils.py` itself, but not one of
the three bindings and not a builtin) fails with a NameError. -/
theorem c6_witness :
    "session" ∈ freeReads ["df", "px", "go"]
        [PyStmt.assign "fig" (PyExpr.name "session")] ∧
    builtinNames.contains "session" = false ∧
    ∃ t, execute_plotly_code [PyStmt.assign "fig" (PyExpr.name "session")] =
      Except.error (PyErr.nameError t) :=
  ⟨by decide, by decide,
    c6_scope_amended [PyStmt.assign "fig" (PyExpr.name "session")] "session"
      (by decide) (by decide)⟩

/- ========================================================================
   Claim C7: completion-service wrapper failures never propagate
   ======================================================================== -/

/-- Claim C7: `get_chart_code` and `get_summary` are total functions of the
completion-service outcome (so a service failure never propagates as an
exception): on success both return the model's text; on failure
`get_chart_code` returns the empty string and `get_summary` returns
exactly the static fallback string. -/
theorem c7_wrapper_failures_contained (r : CompleteOutcome) :
    match r with
    | Except.ok t => get_chart_code r = t ∧ get_summary r = t
    | Except.error _ =>
      get_chart_code r = "" ∧
      get_summary r = "Summary is unavailable at the moment." := by
  cases r with
  | ok t => exact ⟨rfl, rfl⟩
  | error e => exact ⟨rfl, rfl⟩

/- ========================================================================
   Claim C8: SQL result cache correctness
   ======================================================================== -/

/-- Claim C8: from a fresh process, two calls with byte-identical SQL
return the same DataFrame with a single execution against the backing
store; two calls with different SQL each trigger their own independent
execution (the first and the second execution respectively). -/
theorem c8_sql_cache_correct :
    (∀ (store : Nat → String → DataFrame) (sql : String),
      (get_cached_df store (get_cached_df store initialSqlCache sql).2 sql).1 =
        (get_cached_df store initialSqlCache sql).1 ∧
      (get_cached_df store (get_cached_df store initialSqlCache sql).2 sql).2.execCount = 1) ∧
    (∀ (store : Nat → String → DataFrame) (sql1 sql2 : String), sql1 ≠ sql2 →
      (get_cached_df store initialSqlCache sql1).1 = store 0 sql1 ∧
      (get_cached_df store (get_cached_df store initialSqlCache sql1).2 sql2).1 =
        store 1 sql2 ∧
      (get_cached_df store (get_cached_df store initialSqlCache sql1).2 sql2).2.execCount = 2) := by
  constructor
  · intro store sql
    simp [get_cached_df, initialSqlCache, List.lookup]
  · intro store sql1 sql2 hne
    have hbeq : (sql1 == sql2) = false := by
      simp only [beq_eq_false_iff_ne, ne_eq]
      exact hne
    have hbeq2 : (sql2 == sql1) = false := by
      simp only [beq_eq_false_iff_ne, ne_eq]
      exact fun hq => hne hq.symm
    simp [get_cached_df, initialSqlCache, List.lookup, hbeq, hbeq2]

/-- Claim C8, witness: both branches instantiated, with the distinct pair
`SELECT 1` / `SELECT 2`. -/
theorem c8_witness :
    ("SELECT 1" : String) ≠ "SELECT 2" ∧
    (get_cached_df storeW (get_cached_df storeW initialSqlCache "SELECT 1").2 "SELECT 1").1 =
      (get_cached_df storeW initialSqlCache "SELECT 1").1 ∧
    (get_cached_df storeW (get_cached_df storeW initialSqlCache "SELECT 1").2 "SELECT 1").2.execCount = 1 ∧
    (get_cached_df storeW (get_cached_df storeW initialSqlCache "SELECT 1").2 "SELECT 2").1 =
      storeW 1 "SELECT 2" ∧
    (get_cached_df storeW (get_cached_df storeW initialSqlCache "SELECT 1").2 "SELECT 2").2.execCount = 2 := by
  have h1 := c8_sql_cache_correct.1 storeW "SELECT 1"
  have h2 := c8_sql_cache_correct.2 storeW "SELECT 1" "SELECT 2" (by decide)
  exact ⟨by decide, h1.1, h1.2, h2.2.1, h2.2.2⟩

/- ========================================================================
   Claim C9: query-service failure aborts the turn
   ======================================================================== -/

/-- Claim C9: when the query-service response has status at or above 400,
`send_message` raises (carrying the status), the turn aborts with an
inline error, no SQL execution is attempted, and the history ends the turn
with only the user's message appended — no assistant turn. -/
theorem c9_service_error_aborts_turn (resp : CortexResponse)
    (messages : List ChatMessage) (prompt : String) (h : 400 ≤ resp.status) :
    send_message resp = Except.error resp.status ∧
    process_message resp messages prompt =
      { messages := messages ++
          [{ role := "user", content := [ContentItem.text prompt] }],
        outcome := TurnOutcome.errorShown resp.status,
        sqlExecutionsAttempted := 0 } := by
  have hcond : ¬ resp.status < 400 := by omega
  have hsend : send_message resp = Except.error resp.status := by
    simp [send_message, hcond]
  refine ⟨hsend, ?_⟩
  simp [process_message, hsend]

/-- Claim C9, witness: a status-500 response, even one carrying SQL content
items, appends only the user message and attempts no SQL execution. -/
theorem c9_witness :
    400 ≤ (500 : Nat) ∧
    send_message { status := 500, content := [ContentItem.sql "SELECT 1"] } =
      Except.error 500 ∧
    process_message { status := 500, content := [ContentItem.sql "SELECT 1"] } [] "hi" =
      { messages := [{ role := "user", content := [ContentItem.text "hi"] }],
        outcome := TurnOutcome.errorShown 500,
        sqlExecutionsAttempted := 0 } := by
  have h := c9_service_error_aborts_turn
    { status := 500, content := [ContentItem.sql "SELECT 1"] } [] "hi" (by decide)
  exact ⟨by decide, h.1, h.2⟩

end CortexDemo
